import Mathlib

/-!
Shallow embedding of `wgpu_thing` (src/state.rs, src/run.rs): a minimal
wgpu rendering harness.  GPU side effects (surface configures, draws,
queue submissions, presents) are recorded as an explicit trace of
`GpuOp`s; the fallible surface-texture acquisition inside
`State::render` is passed in as an explicit outcome parameter, and the
winit event loop of `run` is modelled as a step function over events.
-/

namespace WgpuThing

/-- winit `PhysicalSize<u32>`: width and height in pixels. -/
structure PhysicalSize where
  width : Nat
  height : Nat
  deriving DecidableEq, Repr

/-- wgpu `TextureFormat`, kept abstract: the two formats that commonly
appear plus an indexed catch-all, enough to distinguish list elements. -/
inductive TextureFormat where
  | Bgra8UnormSrgb
  | Rgba8UnormSrgb
  | Other (n : Nat)
  deriving DecidableEq, Repr

/-- wgpu `TextureUsages` as used here (only `RENDER_ATTACHMENT` occurs). -/
inductive TextureUsages where
  | RENDER_ATTACHMENT
  deriving DecidableEq, Repr

/-- wgpu `PresentMode` (the source only ever selects `Fifo`). -/
inductive PresentMode where
  | Fifo
  | Immediate
  | Mailbox
  deriving DecidableEq, Repr

/-- wgpu `CompositeAlphaMode` (the source only ever selects `Auto`). -/
inductive CompositeAlphaMode where
  | Auto
  | Opaque
  deriving DecidableEq, Repr

/-- wgpu `SurfaceConfiguration`, with the fields set in `State::new`. -/
structure SurfaceConfiguration where
  usage : TextureUsages
  format : TextureFormat
  width : Nat
  height : Nat
  present_mode : PresentMode
  alpha_mode : CompositeAlphaMode
  deriving DecidableEq, Repr

/-- wgpu `PrimitiveTopology`. -/
inductive PrimitiveTopology where
  | PointList
  | LineList
  | LineStrip
  | TriangleList
  | TriangleStrip
  deriving DecidableEq, Repr

/-- wgpu `FrontFace`: which winding order counts as front-facing. -/
inductive FrontFace where
  | Ccw
  | Cw
  deriving DecidableEq, Repr

/-- wgpu `Face` (for cull mode). -/
inductive Face where
  | Front
  | Back
  deriving DecidableEq, Repr

/-- wgpu `PolygonMode`. -/
inductive PolygonMode where
  | Fill
  | Line
  | Point
  deriving DecidableEq, Repr

/-- wgpu `IndexFormat` (only used as `Option` and always `None` here). -/
inductive IndexFormat where
  | Uint16
  | Uint32
  deriving DecidableEq, Repr

/-- wgpu `BlendState` presets; `State::new` uses `BlendState::REPLACE`. -/
inductive BlendState where
  | REPLACE
  | ALPHA_BLENDING
  | PREMULTIPLIED_ALPHA_BLENDING
  deriving DecidableEq, Repr

/-- wgpu `ColorWrites` bitmask: RED=1, GREEN=2, BLUE=4, ALPHA=8. -/
def ColorWrites.ALL : Nat := 15

/-- wgpu `ColorTargetState`: one color output of the fragment stage. -/
structure ColorTargetState where
  format : TextureFormat
  blend : Option BlendState
  write_mask : Nat
  deriving DecidableEq, Repr

/-- wgpu `PrimitiveState`: the fixed rasterization parameters. -/
structure PrimitiveState where
  topology : PrimitiveTopology
  strip_index_format : Option IndexFormat
  front_face : FrontFace
  cull_mode : Option Face
  polygon_mode : PolygonMode
  unclipped_depth : Bool
  conservative : Bool
  deriving DecidableEq, Repr

/-- wgpu `MultisampleState`; `mask: !0` on `u64` is `2 ^ 64 - 1`. -/
structure MultisampleState where
  count : Nat
  mask : Nat
  alpha_to_coverage_enabled : Bool
  deriving DecidableEq, Repr

/-- The observable content of the `RenderPipeline` built in `State::new`:
shader entry points, color targets, primitive/depth/multisample state. -/
structure RenderPipelineDescriptor where
  vertex_entry_point : String
  vertex_buffers : List Unit
  fragment_entry_point : String
  targets : List (Option ColorTargetState)
  primitive : PrimitiveState
  depth_stencil : Option Unit
  multisample : MultisampleState
  multiview : Option Nat
  deriving DecidableEq, Repr

/-- wgpu `SurfaceError`, the error type of `Surface::get_current_texture`. -/
inductive SurfaceError where
  | Timeout
  | Outdated
  | Lost
  | OutOfMemory
  deriving DecidableEq, Repr

/-- A recorded GPU side effect: surface reconfiguration, pipeline bind,
draw call (vertex count, instance count), queue submission (number of
command buffers), or presentation of the acquired image. -/
inductive GpuOp where
  | configure (width height : Nat)
  | setPipeline
  | draw (vertices instances : Nat)
  | submit (buffers : Nat)
  | present
  deriving DecidableEq, Repr

/-- The `State` struct of src/state.rs.  The `surface`, `device` and
`queue` handles are opaque externals whose observable behaviour is the
`GpuOp` trace, so only the data-carrying fields are kept. -/
structure State where
  config : SurfaceConfiguration
  size : PhysicalSize
  render_pipeline : RenderPipelineDescriptor
  deriving DecidableEq, Repr

/-- The `RenderPipelineDescriptor` literal of `State::new`
(src/state.rs lines 76-130), as a function of the surface format. -/
def mkRenderPipeline (format : TextureFormat) : RenderPipelineDescriptor :=
  { vertex_entry_point := "vs_main"
    vertex_buffers := []
    fragment_entry_point := "fs_main"
    targets := [some { format := format
                       blend := some BlendState.REPLACE
                       write_mask := ColorWrites.ALL }]
    primitive := { topology := PrimitiveTopology.TriangleList
                   strip_index_format := none
                   front_face := FrontFace.Ccw
                   cull_mode := some Face.Back
                   polygon_mode := PolygonMode.Fill
                   unclipped_depth := false
                   conservative := false }
    depth_stencil := none
    multisample := { count := 1
                     mask := 2 ^ 64 - 1
                     alpha_to_coverage_enabled := false }
    multiview := none }

/-- `State::new` (src/state.rs lines 23-141).  Parameters are the
externals it reads: the window's inner size and the supported-formats
list returned by `surface.get_supported_formats(&adapter)`.  The Rust
code indexes that list with `[0]`, which panics when it is empty, so
the embedding returns `none` in that case (fatal startup failure).
On success it returns the constructed state together with the trace of
the one `surface.configure(&device, &config)` call it performs. -/
def State.new (size : PhysicalSize) (supported_formats : List TextureFormat) :
    Option (State × List GpuOp) :=
  match supported_formats with
  | [] => none
  | fmt :: _ =>
    let config : SurfaceConfiguration :=
      { usage := TextureUsages.RENDER_ATTACHMENT
        format := fmt
        width := size.width
        height := size.height
        present_mode := PresentMode.Fifo
        alpha_mode := CompositeAlphaMode.Auto }
    some ({ config := config
            size := size
            render_pipeline := mkRenderPipeline config.format },
          [GpuOp.configure size.width size.height])

/-- `State::resize` (src/state.rs lines 144-152): when both dimensions
of `new_size` are positive, update `size` and the config dimensions and
reconfigure the surface; otherwise do nothing. -/
def State.resize (s : State) (new_size : PhysicalSize) : State × List GpuOp :=
  if new_size.width > 0 ∧ new_size.height > 0 then
    ({ s with size := new_size
              config := { s.config with width := new_size.width
                                        height := new_size.height } },
     [GpuOp.configure new_size.width new_size.height])
  else
    (s, [])

/-- `State::input` (src/state.rs lines 155-157): always reports the
event as not consumed. -/
def State.input (_s : State) (_event : Unit) : Bool := false

/-- `State::update` (src/state.rs line 159): a no-op. -/
def State.update (s : State) : State := s

/-- `State::render` (src/state.rs lines 162-216).  The fallible
`self.surface.get_current_texture()` call is passed in as `acq`.  On
an acquisition error the `?` operator returns it immediately, with no
GPU work recorded and the state untouched.  On success the method
records one render pass binding the pipeline and issuing
`draw(0..3, 0..1)`, submits the single finished command buffer
(`iter::once`), presents the acquired texture, and returns `Ok(())`. -/
def State.render (s : State) (acq : Except SurfaceError Unit) :
    Except SurfaceError Unit × List GpuOp × State :=
  match acq with
  | Except.error e => (Except.error e, [], s)
  | Except.ok _ =>
    (Except.ok (),
     [GpuOp.setPipeline, GpuOp.draw 3 1, GpuOp.submit 1, GpuOp.present],
     s)

/-- winit `ElementState`. -/
inductive ElementState where
  | Pressed
  | Released
  deriving DecidableEq, Repr

/-- winit `VirtualKeyCode`, kept to the key the source matches on plus
an indexed catch-all for every other key. -/
inductive VirtualKeyCode where
  | Escape
  | Key (n : Nat)
  deriving DecidableEq, Repr

/-- winit `KeyboardInput` (the fields the source's pattern reads). -/
structure KeyboardInput where
  state : ElementState
  virtual_keycode : Option VirtualKeyCode
  deriving DecidableEq, Repr

/-- winit `WindowEvent`, restricted to the variants src/run.rs matches
on, with `Moved` standing for any variant caught by its `_` arm. -/
inductive WindowEvent where
  | CloseRequested
  | KeyboardInput (input : KeyboardInput)
  | Resized (physical_size : PhysicalSize)
  | ScaleFactorChanged (new_inner_size : PhysicalSize)
  | Moved
  deriving DecidableEq, Repr

/-- winit top-level `Event`, restricted to the variants src/run.rs
matches on; window events and redraw requests carry the id of the
window they are for. -/
inductive Event where
  | WindowEvent (window_id : Nat) (event : WindowEvent)
  | RedrawRequested (window_id : Nat)
  | MainEventsCleared
  | NewEvents
  deriving DecidableEq, Repr

/-- winit `ControlFlow`: `Poll` is the running default, `Exit` asks the
loop to terminate. -/
inductive ControlFlow where
  | Poll
  | Exit
  deriving DecidableEq, Repr

/-- Result of dispatching one event in the closure passed to
`event_loop.run` in src/run.rs: the updated state, the control flow
after the handler ran, the GPU operations performed, and how many
redraws were requested via `window.request_redraw()`. -/
structure StepResult where
  state : State
  control_flow : ControlFlow
  ops : List GpuOp
  redraws : Nat
  deriving DecidableEq, Repr

/-- The event-handling closure of `run` (src/run.rs lines 20-62) for
one event.  `windowId` is `window.id()`; `acq` is the outcome the
surface would give `get_current_texture` if this event triggers a
render.  Window events for our window first go through `state.input`
(always false), then: `CloseRequested` or Escape-pressed sets
`ControlFlow::Exit`; `Resized` and `ScaleFactorChanged` call
`state.resize`; anything else is ignored.  `RedrawRequested` for our
window runs `update` then `render`, handling `Lost` by
`state.resize(state.size)`, `OutOfMemory` by exiting, and any other
error by logging only.  `MainEventsCleared` requests one redraw. -/
def handleEvent (windowId : Nat) (acq : Except SurfaceError Unit)
    (s : State) (cf : ControlFlow) (ev : Event) : StepResult :=
  match ev with
  | Event.WindowEvent wid we =>
    if wid = windowId then
      if s.input () then
        { state := s, control_flow := cf, ops := [], redraws := 0 }
      else
        match we with
        | WindowEvent.CloseRequested =>
          { state := s, control_flow := ControlFlow.Exit, ops := [], redraws := 0 }
        | WindowEvent.KeyboardInput
            { state := ElementState.Pressed
              virtual_keycode := some VirtualKeyCode.Escape } =>
          { state := s, control_flow := ControlFlow.Exit, ops := [], redraws := 0 }
        | WindowEvent.Resized physical_size =>
          let r := s.resize physical_size
          { state := r.1, control_flow := cf, ops := r.2, redraws := 0 }
        | WindowEvent.ScaleFactorChanged new_inner_size =>
          let r := s.resize new_inner_size
          { state := r.1, control_flow := cf, ops := r.2, redraws := 0 }
        | _ =>
          { state := s, control_flow := cf, ops := [], redraws := 0 }
    else
      { state := s, control_flow := cf, ops := [], redraws := 0 }
  | Event.RedrawRequested wid =>
    if wid = windowId then
      let s := s.update
      let r := s.render acq
      match r.1 with
      | Except.ok _ =>
        { state := r.2.2, control_flow := cf, ops := r.2.1, redraws := 0 }
      | Except.error SurfaceError.Lost =>
        let r2 := r.2.2.resize r.2.2.size
        { state := r2.1, control_flow := cf, ops := r.2.1 ++ r2.2, redraws := 0 }
      | Except.error SurfaceError.OutOfMemory =>
        { state := r.2.2, control_flow := ControlFlow.Exit, ops := r.2.1, redraws := 0 }
      | Except.error _ =>
        { state := r.2.2, control_flow := cf, ops := r.2.1, redraws := 0 }
    else
      { state := s, control_flow := cf, ops := [], redraws := 0 }
  | Event.MainEventsCleared =>
    { state := s, control_flow := cf, ops := [], redraws := 1 }
  | Event.NewEvents =>
    { state := s, control_flow := cf, ops := [], redraws := 0 }

/-- The winit event loop driving `handleEvent` over a list of events,
each paired with the surface-acquisition outcome it would see.  Once
`control_flow` is `Exit` the loop delivers no further events, so the
remaining list contributes nothing to the trace. -/
def runEvents (windowId : Nat) :
    State → ControlFlow → List (Event × Except SurfaceError Unit) → List GpuOp
  | _, _, [] => []
  | s, cf, (ev, acq) :: rest =>
    match cf with
    | ControlFlow.Exit => []
    | ControlFlow.Poll =>
      let r := handleEvent windowId acq s cf ev
      r.ops ++ runEvents windowId r.state r.control_flow rest

/-- Predicate selecting draw calls in a trace. -/
def GpuOp.isDraw : GpuOp → Bool
  | GpuOp.draw _ _ => true
  | _ => false

/-- Predicate selecting queue submissions in a trace. -/
def GpuOp.isSubmit : GpuOp → Bool
  | GpuOp.submit _ => true
  | _ => false

/-- Predicate selecting presents in a trace. -/
def GpuOp.isPresent : GpuOp → Bool
  | GpuOp.present => true
  | _ => false

/-- Predicate selecting surface configure calls in a trace. -/
def GpuOp.isConfigure : GpuOp → Bool
  | GpuOp.configure _ _ => true
  | _ => false

/-- Number of draw calls recorded in a trace. -/
def countDraws (ops : List GpuOp) : Nat := (ops.filter GpuOp.isDraw).length

/-- Number of queue submissions recorded in a trace. -/
def countSubmits (ops : List GpuOp) : Nat := (ops.filter GpuOp.isSubmit).length

/-- Number of presents recorded in a trace. -/
def countPresents (ops : List GpuOp) : Nat := (ops.filter GpuOp.isPresent).length

/-- Number of surface configure calls recorded in a trace. -/
def countConfigures (ops : List GpuOp) : Nat := (ops.filter GpuOp.isConfigure).length

/-- Consistency between the stored `size` and the surface
configuration's dimensions: `State::new` establishes it and
`State::resize` preserves it, so it holds in every reachable state. -/
def State.consistent (s : State) : Prop :=
  s.config.width = s.size.width ∧ s.config.height = s.size.height

instance (s : State) : Decidable s.consistent := by
  unfold State.consistent; infer_instance

/-- A concrete state as produced by `State.new` at a 800x600 window
with one supported format, used to instantiate witness theorems. -/
def sampleState : State :=
  { config := { usage := TextureUsages.RENDER_ATTACHMENT
                format := TextureFormat.Bgra8UnormSrgb
                width := 800
                height := 600
                present_mode := PresentMode.Fifo
                alpha_mode := CompositeAlphaMode.Auto }
    size := { width := 800, height := 600 }
    render_pipeline := mkRenderPipeline TextureFormat.Bgra8UnormSrgb }

/-- A concrete state as produced by `State.new` at a zero-sized window
(`State::new` performs no positivity check on the window's inner
size), exercising the degenerate stored size. -/
def zeroSizeState : State :=
  { config := { usage := TextureUsages.RENDER_ATTACHMENT
                format := TextureFormat.Bgra8UnormSrgb
                width := 0
                height := 0
                present_mode := PresentMode.Fifo
                alpha_mode := CompositeAlphaMode.Auto }
    size := { width := 0, height := 0 }
    render_pipeline := mkRenderPipeline TextureFormat.Bgra8UnormSrgb }

/-- Once `control_flow` is `Exit`, the event loop delivers nothing
further: the rest of the event list contributes no GPU operations. -/
theorem runEvents_exit (wid : Nat) (s : State)
    (l : List (Event × Except SurfaceError Unit)) :
    runEvents wid s ControlFlow.Exit l = [] := by
  cases l <;> rfl

/-- C1: whenever surface-texture acquisition succeeds, `State::render`
records exactly one draw call of 3 vertices and 1 instance, then
exactly one submission of exactly one command buffer, then exactly one
present, and returns `Ok` — the full trace is the four operations in
that order, so never zero and never more than one of each. -/
theorem render_success_frame_protocol (s : State) :
    (s.render (Except.ok ())).1 = Except.ok () ∧
    (s.render (Except.ok ())).2.1 =
      [GpuOp.setPipeline, GpuOp.draw 3 1, GpuOp.submit 1, GpuOp.present] ∧
    ((s.render (Except.ok ())).2.1.filter GpuOp.isDraw) = [GpuOp.draw 3 1] ∧
    ((s.render (Except.ok ())).2.1.filter GpuOp.isSubmit) = [GpuOp.submit 1] ∧
    ((s.render (Except.ok ())).2.1.filter GpuOp.isPresent) = [GpuOp.present] ∧
    countDraws (s.render (Except.ok ())).2.1 = 1 ∧
    countSubmits (s.render (Except.ok ())).2.1 = 1 ∧
    countPresents (s.render (Except.ok ())).2.1 = 1 := by
  refine ⟨rfl, rfl, rfl, rfl, rfl, rfl, rfl, rfl⟩

/-- C2: `State::resize` with a zero width or zero height leaves the
state completely unchanged and performs no surface configure call. -/
theorem resize_zero_noop (s : State) (p : PhysicalSize)
    (h : p.width = 0 ∨ p.height = 0) :
    s.resize p = (s, []) := by
  unfold State.resize
  rcases h with h | h <;> simp [h]

/-- Witness for `resize_zero_noop` at a concrete state and size. -/
theorem resize_zero_noop_witness :
    sampleState.resize ⟨0, 600⟩ = (sampleState, []) :=
  resize_zero_noop sampleState ⟨0, 600⟩ (Or.inl rfl)

/-- C4 (part of the theorem): on any acquisition failure `render`
returns that error with no draw, submit or present and the state
unchanged; when the error is neither `Lost` nor `OutOfMemory`, the
redraw tick leaves state and control flow unchanged with an empty
trace (the loop only logs), and the next redraw with a successful
acquisition records the full frame. -/
theorem render_error_no_ops (s : State) (e : SurfaceError)
    (wid : Nat) (cf : ControlFlow) :
    s.render (Except.error e) = (Except.error e, [], s) ∧
    (e ≠ SurfaceError.Lost → e ≠ SurfaceError.OutOfMemory →
      handleEvent wid (Except.error e) s cf (Event.RedrawRequested wid) =
        { state := s, control_flow := cf, ops := [], redraws := 0 } ∧
      (handleEvent wid (Except.ok ()) s cf (Event.RedrawRequested wid)).ops =
        [GpuOp.setPipeline, GpuOp.draw 3 1, GpuOp.submit 1, GpuOp.present]) := by
  refine ⟨rfl, fun h1 h2 => ⟨?_, ?_⟩⟩
  · cases e with
    | Timeout => simp [handleEvent, State.update, State.render]
    | Outdated => simp [handleEvent, State.update, State.render]
    | Lost => exact absurd rfl h1
    | OutOfMemory => exact absurd rfl h2
  · simp [handleEvent, State.update, State.render]

/-- Witness for `render_error_no_ops`: a `Timeout` acquisition failure
at a concrete state leaves everything unchanged with no GPU work. -/
theorem render_error_no_ops_witness :
    handleEvent 0 (Except.error SurfaceError.Timeout) sampleState ControlFlow.Poll
        (Event.RedrawRequested 0) =
      { state := sampleState, control_flow := ControlFlow.Poll, ops := [], redraws := 0 } :=
  ((render_error_no_ops sampleState SurfaceError.Timeout 0 ControlFlow.Poll).2
    (by decide) (by decide)).1

/-- C5: an `OutOfMemory` acquisition failure makes the redraw tick set
`ControlFlow::Exit` immediately, with no GPU operations on that tick,
and the loop processes no further events afterwards: whatever events
follow, the whole run from that tick on produces an empty trace. -/
theorem oom_exits_loop (wid : Nat) (s : State) (cf : ControlFlow)
    (rest : List (Event × Except SurfaceError Unit)) :
    (handleEvent wid (Except.error SurfaceError.OutOfMemory) s cf
        (Event.RedrawRequested wid)).control_flow = ControlFlow.Exit ∧
    (handleEvent wid (Except.error SurfaceError.OutOfMemory) s cf
        (Event.RedrawRequested wid)).ops = [] ∧
    runEvents wid s cf
      ((Event.RedrawRequested wid, Except.error SurfaceError.OutOfMemory) :: rest) = [] := by
  refine ⟨?_, ?_, ?_⟩
  · simp [handleEvent, State.update, State.render]
  · simp [handleEvent, State.update, State.render]
  · cases cf with
    | Exit => rfl
    | Poll =>
      show (handleEvent wid _ s ControlFlow.Poll _).ops ++ runEvents wid _ _ rest = []
      simp [handleEvent, State.update, State.render, runEvents_exit]

/-- C10: a keyboard event with `Pressed` state and the `Escape`
virtual keycode on our window sets `ControlFlow::Exit`; the same event
with `Released` state leaves the control flow exactly as it was. -/
theorem escape_pressed_exits (wid : Nat) (acq acq2 : Except SurfaceError Unit)
    (s : State) (cf : ControlFlow) :
    handleEvent wid acq s cf
        (Event.WindowEvent wid (WindowEvent.KeyboardInput
          { state := ElementState.Pressed
            virtual_keycode := some VirtualKeyCode.Escape })) =
      { state := s, control_flow := ControlFlow.Exit, ops := [], redraws := 0 } ∧
    (handleEvent wid acq2 s cf
        (Event.WindowEvent wid (WindowEvent.KeyboardInput
          { state := ElementState.Released
            virtual_keycode := some VirtualKeyCode.Escape }))).control_flow = cf := by
  constructor <;> simp [handleEvent, State.input]

/-- C7: on a state whose config dimensions agree with its stored size
(the invariant of every reachable state), `State::resize` with the
current size returns the state unchanged; `resize` is idempotent —
resizing twice to the same size equals resizing once — and it
preserves the config/size consistency invariant. -/
theorem resize_idempotent (s : State) (p : PhysicalSize) (h : s.consistent) :
    (s.resize s.size).1 = s ∧
    ((s.resize p).1.resize p).1 = (s.resize p).1 ∧
    (s.resize p).1.consistent := by
  obtain ⟨h1, h2⟩ := h
  refine ⟨?_, ?_, ?_⟩
  · unfold State.resize
    by_cases hp : s.size.width > 0 ∧ s.size.height > 0
    · simp only [hp, if_pos]
      cases s with
      | mk config size rp =>
        cases config
        simp_all
    · simp [hp]
  · unfold State.resize
    by_cases hp : p.width > 0 ∧ p.height > 0
    · simp [hp]
    · simp [hp]
  · unfold State.resize
    by_cases hp : p.width > 0 ∧ p.height > 0
    · simp [hp, State.consistent]
    · simpa [hp, State.consistent] using ⟨h1, h2⟩

/-- Witness for `resize_idempotent` at the sample state and a concrete
new size. -/
theorem resize_idempotent_witness :
    (sampleState.resize sampleState.size).1 = sampleState ∧
    ((sampleState.resize ⟨1024, 768⟩).1.resize ⟨1024, 768⟩).1 =
      (sampleState.resize ⟨1024, 768⟩).1 ∧
    (sampleState.resize ⟨1024, 768⟩).1.consistent :=
  resize_idempotent sampleState ⟨1024, 768⟩ (by decide)

/-- C8: the pipeline installed by `State::new` has triangle-list
topology, counter-clockwise front face, back-face culling, fill
polygon mode, no depth/stencil, 1 sample with coverage blending off
and all samples active, and exactly one color target whose format is
the surface configuration's format, with replace blending and all four
channels written. -/
theorem pipeline_fixed_parameters (size : PhysicalSize)
    (formats : List TextureFormat) (st : State) (ops : List GpuOp)
    (h : State.new size formats = some (st, ops)) :
    st.render_pipeline.primitive.topology = PrimitiveTopology.TriangleList ∧
    st.render_pipeline.primitive.front_face = FrontFace.Ccw ∧
    st.render_pipeline.primitive.cull_mode = some Face.Back ∧
    st.render_pipeline.primitive.polygon_mode = PolygonMode.Fill ∧
    st.render_pipeline.depth_stencil = none ∧
    st.render_pipeline.multisample.count = 1 ∧
    st.render_pipeline.multisample.alpha_to_coverage_enabled = false ∧
    st.render_pipeline.multisample.mask = 2 ^ 64 - 1 ∧
    st.render_pipeline.targets =
      [some { format := st.config.format
              blend := some BlendState.REPLACE
              write_mask := ColorWrites.ALL }] := by
  cases formats with
  | nil => simp [State.new] at h
  | cons f fs =>
    simp only [State.new, Option.some.injEq, Prod.mk.injEq] at h
    obtain ⟨hst, -⟩ := h
    subst hst
    simp [mkRenderPipeline]

/-- Witness for `pipeline_fixed_parameters` at a concrete startup. -/
theorem pipeline_fixed_parameters_witness :
    sampleState.render_pipeline.primitive.topology = PrimitiveTopology.TriangleList ∧
    sampleState.render_pipeline.primitive.front_face = FrontFace.Ccw ∧
    sampleState.render_pipeline.primitive.cull_mode = some Face.Back ∧
    sampleState.render_pipeline.primitive.polygon_mode = PolygonMode.Fill ∧
    sampleState.render_pipeline.depth_stencil = none ∧
    sampleState.render_pipeline.multisample.count = 1 ∧
    sampleState.render_pipeline.multisample.alpha_to_coverage_enabled = false ∧
    sampleState.render_pipeline.multisample.mask = 2 ^ 64 - 1 ∧
    sampleState.render_pipeline.targets =
      [some { format := sampleState.config.format
              blend := some BlendState.REPLACE
              write_mask := ColorWrites.ALL }] :=
  pipeline_fixed_parameters ⟨800, 600⟩ [TextureFormat.Bgra8UnormSrgb]
    sampleState [GpuOp.configure 800 600] (by decide)

/-- C9: `State::new` always selects the head of the supported-formats
list as the surface format (never any fallback), and when that list is
empty it fails fatally (the `[0]` index panics), modelled as `none`. -/
theorem format_first_supported (size : PhysicalSize)
    (formats : List TextureFormat) :
    (formats = [] → State.new size formats = none) ∧
    (∀ f fs, formats = f :: fs →
      ∃ st ops, State.new size formats = some (st, ops) ∧
        st.config.format = f) := by
  refine ⟨fun h => ?_, fun f fs h => ?_⟩
  · subst h; rfl
  · subst h
    exact ⟨_, _, rfl, rfl⟩

/-- Witness for `format_first_supported`: the empty list is fatal, and
a two-element list yields its head, not any other format. -/
theorem format_first_supported_witness :
    State.new ⟨800, 600⟩ [] = none ∧
    ∃ st ops,
      State.new ⟨800, 600⟩
          [TextureFormat.Bgra8UnormSrgb, TextureFormat.Rgba8UnormSrgb] =
        some (st, ops) ∧
      st.config.format = TextureFormat.Bgra8UnormSrgb :=
  ⟨(format_first_supported ⟨800, 600⟩ []).1 rfl,
   (format_first_supported ⟨800, 600⟩
      [TextureFormat.Bgra8UnormSrgb, TextureFormat.Rgba8UnormSrgb]).2
     TextureFormat.Bgra8UnormSrgb [TextureFormat.Rgba8UnormSrgb] rfl⟩

/-- C3 (amended): on a redraw tick where acquisition fails with
`Lost`, provided the stored size has both dimensions positive (true
for every state except one created from a degenerate zero-sized
window), the loop reconfigures the surface at exactly the stored
pre-failure size, records no draw, no submit and no present on that
tick, leaves the control flow and stored size unchanged, and the next
redraw tick with a successful acquisition records the full frame. -/
theorem lost_recovery (wid : Nat) (s : State) (cf : ControlFlow)
    (hw : 0 < s.size.width) (hh : 0 < s.size.height) :
    (handleEvent wid (Except.error SurfaceError.Lost) s cf
        (Event.RedrawRequested wid)).ops =
      [GpuOp.configure s.size.width s.size.height] ∧
    countDraws (handleEvent wid (Except.error SurfaceError.Lost) s cf
        (Event.RedrawRequested wid)).ops = 0 ∧
    countSubmits (handleEvent wid (Except.error SurfaceError.Lost) s cf
        (Event.RedrawRequested wid)).ops = 0 ∧
    countPresents (handleEvent wid (Except.error SurfaceError.Lost) s cf
        (Event.RedrawRequested wid)).ops = 0 ∧
    (handleEvent wid (Except.error SurfaceError.Lost) s cf
        (Event.RedrawRequested wid)).control_flow = cf ∧
    (handleEvent wid (Except.error SurfaceError.Lost) s cf
        (Event.RedrawRequested wid)).state.size = s.size ∧
    (handleEvent wid (Except.ok ())
        (handleEvent wid (Except.error SurfaceError.Lost) s cf
          (Event.RedrawRequested wid)).state
        cf (Event.RedrawRequested wid)).ops =
      [GpuOp.setPipeline, GpuOp.draw 3 1, GpuOp.submit 1, GpuOp.present] := by
  have hcond : s.size.width > 0 ∧ s.size.height > 0 := ⟨hw, hh⟩
  refine ⟨?_, ?_, ?_, ?_, ?_, ?_, ?_⟩ <;>
    simp [handleEvent, State.update, State.render, State.resize, hcond,
          countDraws, countSubmits, countPresents, GpuOp.isDraw,
          GpuOp.isSubmit, GpuOp.isPresent]

/-- Witness for `lost_recovery` at the concrete 800x600 sample state. -/
theorem lost_recovery_witness :
    (handleEvent 0 (Except.error SurfaceError.Lost) sampleState ControlFlow.Poll
        (Event.RedrawRequested 0)).ops =
      [GpuOp.configure sampleState.size.width sampleState.size.height] ∧
    countDraws (handleEvent 0 (Except.error SurfaceError.Lost) sampleState
        ControlFlow.Poll (Event.RedrawRequested 0)).ops = 0 ∧
    countSubmits (handleEvent 0 (Except.error SurfaceError.Lost) sampleState
        ControlFlow.Poll (Event.RedrawRequested 0)).ops = 0 ∧
    countPresents (handleEvent 0 (Except.error SurfaceError.Lost) sampleState
        ControlFlow.Poll (Event.RedrawRequested 0)).ops = 0 ∧
    (handleEvent 0 (Except.error SurfaceError.Lost) sampleState ControlFlow.Poll
        (Event.RedrawRequested 0)).control_flow = ControlFlow.Poll ∧
    (handleEvent 0 (Except.error SurfaceError.Lost) sampleState ControlFlow.Poll
        (Event.RedrawRequested 0)).state.size = sampleState.size ∧
    (handleEvent 0 (Except.ok ())
        (handleEvent 0 (Except.error SurfaceError.Lost) sampleState
          ControlFlow.Poll (Event.RedrawRequested 0)).state
        ControlFlow.Poll (Event.RedrawRequested 0)).ops =
      [GpuOp.setPipeline, GpuOp.draw 3 1, GpuOp.submit 1, GpuOp.present] :=
  lost_recovery 0 sampleState ControlFlow.Poll (by decide) (by decide)

/-- C3 counterexample: the state produced by `State::new` at a
zero-sized window is reachable, and on it a `Lost` redraw tick
performs no surface reconfigure at all (the resize guard rejects the
stored size), contradicting the claim that the loop always
reconfigures at the last known size after `Lost`. -/
theorem lost_recovery_counterexample :
    State.new ⟨0, 0⟩ [TextureFormat.Bgra8UnormSrgb] =
      some (zeroSizeState, [GpuOp.configure 0 0]) ∧
    handleEvent 0 (Except.error SurfaceError.Lost) zeroSizeState ControlFlow.Poll
        (Event.RedrawRequested 0) =
      { state := zeroSizeState, control_flow := ControlFlow.Poll
        ops := [], redraws := 0 } ∧
    countConfigures (handleEvent 0 (Except.error SurfaceError.Lost) zeroSizeState
        ControlFlow.Poll (Event.RedrawRequested 0)).ops = 0 := by
  refine ⟨by decide, by decide, by decide⟩

/-- C6 (amended): every surface configure call issued by
`State::resize` has strictly positive width and height, and the single
configure call issued at startup by `State::new` has strictly positive
dimensions provided the window's inner size does (a condition
`State::new` itself never checks). -/
theorem configure_positive (s : State) (p : PhysicalSize)
    (size : PhysicalSize) (formats : List TextureFormat)
    (st : State) (ops : List GpuOp)
    (hw : 0 < size.width) (hh : 0 < size.height)
    (hnew : State.new size formats = some (st, ops)) :
    (∀ w h, GpuOp.configure w h ∈ (s.resize p).2 → 0 < w ∧ 0 < h) ∧
    (∀ w h, GpuOp.configure w h ∈ ops → 0 < w ∧ 0 < h) := by
  constructor
  · intro w h hmem
    unfold State.resize at hmem
    by_cases hp : p.width > 0 ∧ p.height > 0
    · simp only [hp, if_pos] at hmem
      cases hmem with
      | head => exact hp
      | tail _ hmem2 => cases hmem2
    · simp [hp] at hmem
  · intro w h hmem
    cases formats with
    | nil => simp [State.new] at hnew
    | cons f fs =>
      simp only [State.new, Option.some.injEq, Prod.mk.injEq] at hnew
      obtain ⟨-, hops⟩ := hnew
      subst hops
      cases hmem with
      | head => exact ⟨hw, hh⟩
      | tail _ hmem2 => cases hmem2

/-- Witness for `configure_positive`: the configure calls recorded for
a concrete resize and a concrete startup both have positive size. -/
theorem configure_positive_witness :
    ((0:Nat) < 1024 ∧ (0:Nat) < 768) ∧ ((0:Nat) < 800 ∧ (0:Nat) < 600) :=
  ⟨(configure_positive sampleState ⟨1024, 768⟩ ⟨800, 600⟩
      [TextureFormat.Bgra8UnormSrgb] sampleState [GpuOp.configure 800 600]
      (by decide) (by decide) (by decide)).1 1024 768 (by decide),
   (configure_positive sampleState ⟨1024, 768⟩ ⟨800, 600⟩
      [TextureFormat.Bgra8UnormSrgb] sampleState [GpuOp.configure 800 600]
      (by decide) (by decide) (by decide)).2 800 600 (by decide)⟩

/-- C6 counterexample: at a window whose inner size is 0x480,
`State::new` succeeds and issues a configure call with width 0, so the
configured dimensions are not strictly positive at every configure
call. -/
theorem configure_positive_counterexample :
    (State.new ⟨0, 480⟩ [TextureFormat.Bgra8UnormSrgb]).map Prod.snd =
      some [GpuOp.configure 0 480] ∧ ¬ (0:Nat) < 0 := by
  refine ⟨by decide, by decide⟩

end WgpuThing
